import Mathlib

/-!
Shallow embedding of the PathoTracer pathogen prediction and risk-scoring
engine (`src/models/pathogen_predictor.py`, class `PathogenPredictor`).

Numeric values are modelled with `ℚ`: every literal appearing in comparisons
in the source (0.4, 0.2, 0.5, 0.95, 0.6, 0.3, 0.1, 0.8, thresholds 7, 50,
85, ...) is an exact decimal, and all comparisons in the source stay away
from float-rounding boundaries, so the rational model agrees with the
Python float semantics on every branch decision.

The catch-all `try/except` in `predict` is modelled by an explicit
`failure : Bool` flag: `failure = true` is "some internal exception was
raised during scoring or enhancement", in which case the fixed fallback
prediction is returned.
-/

/-- Favorable environmental conditions of a pathogen profile
(`favorable_conditions` sub-dict in `_initialize_pathogen_knowledge`):
inclusive `(low, high)` ranges for temperature and humidity plus a
descriptive rainfall string. All three seeded profiles carry all three
keys, so the sub-dict is modelled as a total record. -/
structure FavorableConditions where
  temperature : ℚ × ℚ
  humidity : ℚ × ℚ
  rainfall : String
deriving DecidableEq

/-- One entry of the pathogen knowledge base. -/
structure PathogenProfile where
  common_name : String
  pathogen_type : String
  symptoms : List String
  favorable_conditions : FavorableConditions
  severity_factors : List String
  management : List String
deriving DecidableEq

/-- The static knowledge base built by `_initialize_pathogen_knowledge`. -/
def pathogen_knowledge : List (String × PathogenProfile) :=
  [ ("Magnaporthe oryzae",
     { common_name := "Rice Blast"
       pathogen_type := "Fungal"
       symptoms := ["leaf spots", "neck rot", "panicle blast"]
       favorable_conditions :=
         { temperature := (20, 30), humidity := (85, 100), rainfall := "high" }
       severity_factors := ["growth_stage", "variety_susceptibility"]
       management :=
         ["Use resistant varieties",
          "Apply fungicides at early growth stages",
          "Improve field drainage",
          "Balanced fertilization"] }),
    ("Rhizoctonia solani",
     { common_name := "Sheath Blight"
       pathogen_type := "Fungal"
       symptoms := ["sheath blight", "lesions", "yellowing"]
       favorable_conditions :=
         { temperature := (25, 32), humidity := (80, 100),
           rainfall := "moderate to high" }
       severity_factors := ["plant_density", "nitrogen_level"]
       management :=
         ["Reduce plant density",
          "Balanced nitrogen application",
          "Apply fungicides at tillering stage",
          "Improve air circulation"] }),
    ("Xanthomonas oryzae",
     { common_name := "Bacterial Leaf Blight"
       pathogen_type := "Bacterial"
       symptoms := ["leaf blight", "yellowing", "wilting"]
       favorable_conditions :=
         { temperature := (25, 34), humidity := (70, 100),
           rainfall := "high with flooding" }
       severity_factors := ["wound_entry", "variety_susceptibility"]
       management :=
         ["Use certified seeds",
          "Apply copper-based bactericides",
          "Avoid excessive nitrogen",
          "Manage water levels"] }) ]

/-- Dictionary lookup `self.pathogen_knowledge.get(pathogen)`: `none` when
the identity is not a key. -/
def knowledgeLookup (pathogen : String) : Option PathogenProfile :=
  pathogen_knowledge.lookup pathogen

/-- The diagnosis data consumed by `predict`. Each field models the value
obtained by the corresponding `diagnosis_data.get(...)` call (with the
source's default already folded in when the key is absent); `growth_stage`
is an `Option` because `_rule_based_prediction` reads it with default
`None` while `_get_management_recommendations` reads it with default
`"Tillering"`. -/
structure Observation where
  symptoms : List String
  temperature : ℚ
  humidity : ℚ
  growth_stage : Option String
  rainfall : ℚ
  severity : ℚ
  affected_area : ℚ
deriving DecidableEq

/-- An intermediate rule-based prediction dict (pathogen and confidence). -/
structure Candidate where
  pathogen : String
  confidence : ℚ
deriving DecidableEq

/-- Python `any(symptom in symptoms for symptom in ruleSymptoms)`. -/
def hasAnySymptom (ruleSymptoms symptoms : List String) : Bool :=
  ruleSymptoms.any (fun s => symptoms.contains s)

/-- Membership test `diagnosis_data.get("growth_stage") in stages` (the
missing key reads as `None`, which is in no list of strings). -/
def stageIn (st : Option String) (stages : List String) : Bool :=
  match st with
  | some g => stages.contains g
  | none => false

/-- Rice Blast raw score accumulation in `_rule_based_prediction`. -/
def blast_score (o : Observation) : ℚ :=
  let s : ℚ := 0
  let s := if hasAnySymptom ["leaf spots", "neck rot", "panicle blast"] o.symptoms
           then s + 0.4 else s
  let s := if 20 ≤ o.temperature ∧ o.temperature ≤ 30 then s + 0.2 else s
  let s := if 85 ≤ o.humidity then s + 0.2 else s
  let s := if stageIn o.growth_stage ["Heading", "Flowering"] then s + 0.2 else s
  s

/-- Sheath Blight raw score accumulation in `_rule_based_prediction`. -/
def blight_score (o : Observation) : ℚ :=
  let s : ℚ := 0
  let s := if hasAnySymptom ["sheath blight", "lesions", "yellowing"] o.symptoms
           then s + 0.4 else s
  let s := if 25 ≤ o.temperature ∧ o.temperature ≤ 32 then s + 0.2 else s
  let s := if 80 ≤ o.humidity then s + 0.2 else s
  let s := if stageIn o.growth_stage ["Tillering", "Stem elongation"] then s + 0.2 else s
  s

/-- Bacterial Leaf Blight raw score accumulation in `_rule_based_prediction`. -/
def bacterial_score (o : Observation) : ℚ :=
  let s : ℚ := 0
  let s := if hasAnySymptom ["leaf blight", "yellowing", "wilting"] o.symptoms
           then s + 0.4 else s
  let s := if 25 ≤ o.temperature ∧ o.temperature ≤ 34 then s + 0.2 else s
  let s := if 70 ≤ o.humidity then s + 0.2 else s
  let s := if 10 < o.rainfall then s + 0.2 else s
  s

/-- The candidate list appended by the three threshold checks of
`_rule_based_prediction` (before the no-strong-prediction fallback). -/
def rule_candidates (o : Observation) : List Candidate :=
  (if 0.5 < blast_score o then
     [{ pathogen := "Magnaporthe oryzae", confidence := min (blast_score o) 0.95 }]
   else [])
  ++ (if 0.5 < blight_score o then
       [{ pathogen := "Rhizoctonia solani", confidence := min (blight_score o) 0.95 }]
      else [])
  ++ (if 0.5 < bacterial_score o then
       [{ pathogen := "Xanthomonas oryzae", confidence := min (bacterial_score o) 0.95 }]
      else [])

/-- Source `_rule_based_prediction`: the candidates, or, when none qualified, the
symptom-biased single fallback candidate. -/
def rule_based_prediction (o : Observation) : List Candidate :=
  let predictions := rule_candidates o
  if predictions.isEmpty then
    if o.symptoms.isEmpty then
      [{ pathogen := "Unknown", confidence := 0.3 }]
    else
      [{ pathogen := "Magnaporthe oryzae", confidence := 0.6 }]
  else predictions

/-- The `base_risk` accumulation of `_calculate_risk_level`: environmental
bonuses only when a profile was found (`if pathogen_info and
"favorable_conditions" in pathogen_info`, adapted: all seeded profiles
carry the key), then severity and affected-area bonuses. -/
def calc_base_risk (confidence : ℚ) (o : Observation)
    (pathogen_info : Option PathogenProfile) : ℚ :=
  let base := confidence
  let base :=
    match pathogen_info with
    | some p =>
        let tr := p.favorable_conditions.temperature
        let hr := p.favorable_conditions.humidity
        let base := if tr.1 ≤ o.temperature ∧ o.temperature ≤ tr.2 then base + 0.1 else base
        if hr.1 ≤ o.humidity ∧ o.humidity ≤ hr.2 then base + 0.1 else base
    | none => base
  let base := if 7 ≤ o.severity then base + 0.1 else base
  if 50 ≤ o.affected_area then base + 0.1 else base

/-- The classification tail of `_calculate_risk_level`. -/
def calculate_risk_level (confidence : ℚ) (o : Observation)
    (pathogen_info : Option PathogenProfile) : String :=
  let base_risk := calc_base_risk confidence o pathogen_info
  if 0.8 ≤ base_risk then "High"
  else if 0.6 ≤ base_risk then "Medium"
  else "Low"

/-- Source `_get_management_recommendations` (the `pathogen` argument of the
source is unused there beyond documentation, so it is dropped). -/
def get_management_recommendations (o : Observation)
    (pathogen_info : Option PathogenProfile) : List String :=
  let recommendations : List String :=
    match pathogen_info with
    | some p => p.management
    | none => []
  let recommendations :=
    if 7 ≤ o.severity then
      "Immediate intervention required due to high severity" :: recommendations
    else recommendations
  let recommendations :=
    if (o.growth_stage.getD "Tillering") ∈ ["Flowering", "Grain filling"] then
      recommendations ++ ["Apply protective measures to prevent grain infection"]
    else recommendations
  let recommendations :=
    if 85 ≤ o.humidity then
      recommendations ++ ["Improve field ventilation to reduce humidity"]
    else recommendations
  recommendations.take 5

/-- Source `_determine_action`. -/
def determine_action (risk_level : String) (confidence : ℚ) : String :=
  if risk_level = "High" ∧ 0.8 ≤ confidence then "Immediate Treatment"
  else if risk_level = "High" ∧ 0.6 ≤ confidence then "Urgent Monitoring"
  else if risk_level = "Medium" then "Preventive Action"
  else "Monitor & Observe"

/-- The output record assembled by `_enhance_prediction`.
`favorable_conditions` is an `Option`: `none` models the empty dict `{}`
that `pathogen_info.get("favorable_conditions", default empty)` yields for an unknown
pathogen. -/
structure EnhancedPrediction where
  pathogen : String
  common_name : String
  pathogen_type : String
  confidence : ℚ
  risk_level : String
  action : String
  recommendations : List String
  favorable_conditions : Option FavorableConditions
  typical_symptoms : List String
deriving DecidableEq

/-- Source `_enhance_prediction`. -/
def enhance_prediction (result : Candidate) (o : Observation) : EnhancedPrediction :=
  let pathogen := result.pathogen
  let confidence := result.confidence
  let pathogen_info := knowledgeLookup pathogen
  let risk_level := calculate_risk_level confidence o pathogen_info
  let recommendations := get_management_recommendations o pathogen_info
  let action := determine_action risk_level confidence
  { pathogen := pathogen
    common_name := (pathogen_info.map PathogenProfile.common_name).getD pathogen
    pathogen_type := (pathogen_info.map PathogenProfile.pathogen_type).getD "Unknown"
    confidence := confidence
    risk_level := risk_level
    action := action
    recommendations := recommendations
    favorable_conditions := pathogen_info.map PathogenProfile.favorable_conditions
    typical_symptoms := (pathogen_info.map PathogenProfile.symptoms).getD [] }

/-- Source `_fallback_prediction`: the fixed single-element result substituted when
any exception escapes the scoring/enhancement pipeline. -/
def fallback_prediction (_o : Observation) : List EnhancedPrediction :=
  [{ pathogen := "Unknown Pathogen"
     common_name := "Unknown Disease"
     pathogen_type := "Unknown"
     confidence := 0.3
     risk_level := "Medium"
     action := "Laboratory Analysis Needed"
     recommendations :=
       ["Submit sample for laboratory analysis",
        "Monitor field conditions closely",
        "Apply general fungicide as precaution",
        "Consult agricultural extension officer"]
     favorable_conditions := none
     typical_symptoms := [] }]

/-- The non-exceptional body of `predict`: rule-based candidates, each
enhanced. -/
def predictResults (o : Observation) : List EnhancedPrediction :=
  (rule_based_prediction o).map (fun r => enhance_prediction r o)

/-- Source `predict`, with the catch-all `except` modelled by the `failure` flag:
when any internal exception occurs the fallback prediction is returned,
otherwise the enhanced rule-based results. -/
def predict (failure : Bool) (o : Observation) : List EnhancedPrediction :=
  if failure then fallback_prediction o else predictResults o

/-!
Breeding-priority analyzer (`get_breeding_recommendations`).

The input `pd.DataFrame` with columns `pathogen`, `resistance_score` is
modelled as a list of rows. The groupby on the `pathogen` column groups
rows by that column and — with the pandas default `sort=True` —
iterates the groups in ascending (code-point lexicographic) order of the
key, NOT in input order. The sample standard deviation (`ddof=1`) of a
single-element group is NaN, modelled as `none`; because the square root
of a rational is irrational in general, the embedding carries the squared
standard deviation (the sample variance) and compares `variability > 2`
as `variance > 4`, which is equivalent since a standard deviation is
nonnegative.
-/

/-- One row of the resistance DataFrame. -/
structure ResistanceRow where
  pathogen : String
  resistance_score : ℚ
deriving DecidableEq

/-- Code-point lexicographic comparison of character lists (Python string
`<`, used by pandas to sort group keys). -/
def charListLt : List Char → List Char → Bool
  | _, [] => false
  | [], _ :: _ => true
  | a :: as, b :: bs =>
      if a.toNat < b.toNat then true
      else if b.toNat < a.toNat then false
      else charListLt as bs

/-- Python string `<` (code-point order). -/
def strLt (s t : String) : Bool :=
  charListLt s.data t.data

/-- Insert a key into an ascending key list (helper of `sortKeys`). -/
def insertKey (k : String) : List String → List String
  | [] => [k]
  | x :: xs => if strLt x k then x :: insertKey k xs else k :: x :: xs

/-- Ascending sort of group keys, as pandas `groupby(..., sort=True)` does. -/
def sortKeys : List String → List String
  | [] => []
  | k :: ks => insertKey k (sortKeys ks)

/-- The `resistance_score` column of the group of rows for key `k`. -/
def groupScores (rows : List ResistanceRow) (k : String) : List ℚ :=
  (rows.filter (fun r => r.pathogen == k)).map ResistanceRow.resistance_score

/-- Group mean (the `mean` aggregate). -/
def meanOf (l : List ℚ) : ℚ :=
  l.sum / l.length

/-- Group sample variance, i.e. the square of the `std` aggregate (`ddof=1`):
`none` models the NaN that pandas yields for fewer than 2 samples. -/
def sampleVarOf (l : List ℚ) : Option ℚ :=
  if l.length < 2 then none
  else some ((l.map (fun x => (x - meanOf l) ^ 2)).sum / ((l.length : ℚ) - 1))

/-- Python `round` (round-half-to-even) to an integer. -/
def roundHalfEven (q : ℚ) : ℤ :=
  let f := ⌊q⌋
  let r := q - f
  if r < 1 / 2 then f
  else if 1 / 2 < r then f + 1
  else if f % 2 = 0 then f else f + 1

/-- Python `round(x, 2)` on exact decimals. -/
def round2 (q : ℚ) : ℚ :=
  (roundHalfEven (q * 100) : ℚ) / 100

/-- One output dict of `get_breeding_recommendations`. `variability_sq`
carries the square of the reported variability: the source stores
`round(variability, 2)` when the std is defined and `0` otherwise; the
claims only constrain the undefined case, where the report is exactly `0`
(and `0` squared is `0`), so the squared model is faithful there. -/
structure BreedingRec where
  pathogen : String
  priority : String
  recommendation : String
  current_avg_resistance : ℚ
  variability_sq : ℚ
deriving DecidableEq

/-- The loop body of `get_breeding_recommendations`: priority tier and
message from the mean, variability suffix from the std (`variability > 2`
is false for NaN, and equivalent to `variance > 4` otherwise). -/
def breeding_rec (pathogen : String) (avg_resistance : ℚ) (varSq : Option ℚ) : BreedingRec :=
  let pr :=
    if avg_resistance < 4 then
      ("High", "Urgent need to develop varieties with higher resistance to " ++ pathogen)
    else if avg_resistance < 6 then
      ("Medium", "Improve resistance levels to " ++ pathogen ++ " through selective breeding")
    else
      ("Low", "Maintain current resistance levels to " ++ pathogen)
  let recommendation :=
    match varSq with
    | some v =>
        if 4 < v then pr.2 ++ " - Focus on reducing variability between varieties" else pr.2
    | none => pr.2
  { pathogen := pathogen
    priority := pr.1
    recommendation := recommendation
    current_avg_resistance := round2 avg_resistance
    variability_sq := match varSq with | some v => v | none => 0 }

/-- The priority_order mapping (High 1, Medium 2, Low 3); only these three
keys ever occur (the loop body constructs no other priority), so the
default branch is unreachable. -/
def priority_rank (p : String) : ℕ :=
  if p = "High" then 1
  else if p = "Medium" then 2
  else if p = "Low" then 3
  else 4

/-- Stable insertion of a record into an already rank-sorted list: the new
record (earlier in the input) goes before every equal-rank record already
present. Helper modelling the stable Python `list.sort(key=...)`. -/
def insertByRank (x : BreedingRec) : List BreedingRec → List BreedingRec
  | [] => [x]
  | y :: ys =>
      if priority_rank x.priority ≤ priority_rank y.priority then x :: y :: ys
      else y :: insertByRank x ys

/-- Stable sort by priority rank (the Python `list.sort` is stable). -/
def sortByRank : List BreedingRec → List BreedingRec
  | [] => []
  | x :: xs => insertByRank x (sortByRank xs)

/-- The pre-sort recommendation list of `get_breeding_recommendations`: one
entry per group of the groupby on the `pathogen` column, iterated in the
ascending key order that pandas uses. -/
def breeding_group_recs (resistance_data : List ResistanceRow) : List BreedingRec :=
  (sortKeys (resistance_data.map ResistanceRow.pathogen).eraseDups).map (fun k =>
    let scores := groupScores resistance_data k
    breeding_rec k (meanOf scores) (sampleVarOf scores))

/-- Source `get_breeding_recommendations`: group by pathogen (keys in ascending
order), build one recommendation per group, stable-sort by priority rank. -/
def get_breeding_recommendations (resistance_data : List ResistanceRow) : List BreedingRec :=
  if resistance_data.isEmpty then []
  else sortByRank (breeding_group_recs resistance_data)

/-!
Spec-side definitions: for the refinement claims these restate, in the
shape the specification describes them (a flat sum of independent
contributions, a flat assembled list), the quantities the source computes
by sequential accumulation. Each is compared with its source-derived
counterpart by a theorem below.
-/

/-- Spec §4.2 wording: Magnaporthe oryzae raw score as a flat sum of its
four independent rule contributions. -/
def specScore_magnaporthe (o : Observation) : ℚ :=
  (if hasAnySymptom ["leaf spots", "neck rot", "panicle blast"] o.symptoms then 0.4 else 0)
  + (if 20 ≤ o.temperature ∧ o.temperature ≤ 30 then 0.2 else 0)
  + (if 85 ≤ o.humidity then 0.2 else 0)
  + (if stageIn o.growth_stage ["Heading", "Flowering"] then 0.2 else 0)

/-- Spec §4.2 wording: Rhizoctonia solani raw score as a flat sum. -/
def specScore_rhizoctonia (o : Observation) : ℚ :=
  (if hasAnySymptom ["sheath blight", "lesions", "yellowing"] o.symptoms then 0.4 else 0)
  + (if 25 ≤ o.temperature ∧ o.temperature ≤ 32 then 0.2 else 0)
  + (if 80 ≤ o.humidity then 0.2 else 0)
  + (if stageIn o.growth_stage ["Tillering", "Stem elongation"] then 0.2 else 0)

/-- Spec §4.2 wording: Xanthomonas oryzae raw score as a flat sum. -/
def specScore_xanthomonas (o : Observation) : ℚ :=
  (if hasAnySymptom ["leaf blight", "yellowing", "wilting"] o.symptoms then 0.4 else 0)
  + (if 25 ≤ o.temperature ∧ o.temperature ≤ 34 then 0.2 else 0)
  + (if 70 ≤ o.humidity then 0.2 else 0)
  + (if 10 < o.rainfall then 0.2 else 0)

/-- The observation's temperature lies inclusively within the profile's
favorable temperature range (false when there is no profile). -/
def tempFavorable (o : Observation) (info : Option PathogenProfile) : Bool :=
  match info with
  | some p =>
      decide (p.favorable_conditions.temperature.1 ≤ o.temperature
        ∧ o.temperature ≤ p.favorable_conditions.temperature.2)
  | none => false

/-- The observation's humidity lies inclusively within the profile's
favorable humidity range (false when there is no profile). -/
def humFavorable (o : Observation) (info : Option PathogenProfile) : Bool :=
  match info with
  | some p =>
      decide (p.favorable_conditions.humidity.1 ≤ o.humidity
        ∧ o.humidity ≤ p.favorable_conditions.humidity.2)
  | none => false

/-- Spec §4.3 wording: base risk as confidence plus a flat sum of the four
independent +0.1 bonuses, with no clipping. -/
def specBaseRisk (confidence : ℚ) (o : Observation)
    (info : Option PathogenProfile) : ℚ :=
  confidence
  + (if tempFavorable o info then 0.1 else 0)
  + (if humFavorable o info then 0.1 else 0)
  + (if 7 ≤ o.severity then 0.1 else 0)
  + (if 50 ≤ o.affected_area then 0.1 else 0)

/-- Spec §4.4 wording: the recommendation list as one flat assembly — the
severity line first, then the profile's management actions in order, then
the grain-protection and ventilation lines — truncated to 5. -/
def specRecommendations (o : Observation) (info : Option PathogenProfile) : List String :=
  ((if 7 ≤ o.severity then ["Immediate intervention required due to high severity"] else [])
   ++ (match info with | some p => p.management | none => [])
   ++ (if (o.growth_stage.getD "Tillering") ∈ ["Flowering", "Grain filling"] then
         ["Apply protective measures to prevent grain infection"] else [])
   ++ (if 85 ≤ o.humidity then ["Improve field ventilation to reduce humidity"] else [])).take 5

/-- The suffix that `get_breeding_recommendations` appends when the group's
standard deviation exceeds 2 (equivalently, when the sample variance
exceeds 4; empty for a missing standard deviation). -/
def variabilitySuffix (varSq : Option ℚ) : String :=
  match varSq with
  | some v => if 4 < v then " - Focus on reducing variability between varieties" else ""
  | none => ""

/-!
Shared helper definitions and lemmas for the theorems below.
-/

/-- The observation whose numeric fields are exactly the source's `.get`
defaults (temperature 25, humidity 80, no growth stage, rainfall 0,
severity 5, affected area 25) and whose symptom list is empty. -/
def obsDefault : Observation :=
  { symptoms := [], temperature := 25, humidity := 80, growth_stage := none,
    rainfall := 0, severity := 5, affected_area := 25 }

lemma rule_based_prediction_eq (o : Observation) :
    rule_based_prediction o =
      if (rule_candidates o).isEmpty then
        if o.symptoms.isEmpty then
          [{ pathogen := "Unknown", confidence := 0.3 }]
        else
          [{ pathogen := "Magnaporthe oryzae", confidence := 0.6 }]
      else rule_candidates o := rfl

lemma rule_candidates_pathogens_sublist (o : Observation) :
    List.Sublist ((rule_candidates o).map Candidate.pathogen)
      ["Magnaporthe oryzae", "Rhizoctonia solani", "Xanthomonas oryzae"] := by
  unfold rule_candidates
  split_ifs <;> simp

lemma rule_based_prediction_ne_nil (o : Observation) :
    rule_based_prediction o ≠ [] := by
  rw [rule_based_prediction_eq]
  split
  · split <;> simp
  · rename_i h
    rw [List.isEmpty_iff] at h
    simpa using h

lemma rule_based_pathogens_nodup (o : Observation) :
    ((rule_based_prediction o).map Candidate.pathogen).Nodup := by
  rw [rule_based_prediction_eq]
  split
  · split <;> simp
  · exact ((by decide :
      (["Magnaporthe oryzae", "Rhizoctonia solani", "Xanthomonas oryzae"] :
        List String).Nodup)).sublist (rule_candidates_pathogens_sublist o)

lemma rule_based_length_le_three (o : Observation) :
    (rule_based_prediction o).length ≤ 3 := by
  rw [rule_based_prediction_eq]
  split
  · split <;> simp
  · have h := (rule_candidates_pathogens_sublist o).length_le
    simpa using h

/-- C1: for every observation, `predict` never raises to the caller and
returns at least one `EnhancedPrediction`; on any internal failure it
returns exactly the single fixed fallback prediction with pathogen
"Unknown Pathogen", confidence 0.3, risk level "Medium", action
"Laboratory Analysis Needed", the fixed 4-item generic recommendation
list, empty favorable conditions and empty typical symptoms. (Totality of
`predict` is the embedding's form of "never raises"; the `failure` flag
covers any internal failure during scoring or enhancement.) -/
theorem predict_total_and_fallback_fixed :
    ∀ (failure : Bool) (o : Observation),
      1 ≤ (predict failure o).length ∧
      predict true o = fallback_prediction o ∧
      fallback_prediction o =
        [{ pathogen := "Unknown Pathogen"
           common_name := "Unknown Disease"
           pathogen_type := "Unknown"
           confidence := 0.3
           risk_level := "Medium"
           action := "Laboratory Analysis Needed"
           recommendations :=
             ["Submit sample for laboratory analysis",
              "Monitor field conditions closely",
              "Apply general fungicide as precaution",
              "Consult agricultural extension officer"]
           favorable_conditions := none
           typical_symptoms := [] }] := by
  intro failure o
  refine ⟨?_, rfl, rfl⟩
  cases failure with
  | true => simp [predict, fallback_prediction]
  | false =>
      simp only [predict, Bool.false_eq_true, if_false, predictResults, List.length_map]
      have h := rule_based_prediction_ne_nil o
      cases hr : rule_based_prediction o with
      | nil => exact absurd hr h
      | cons a l => simp

/-- C10: for every observation (and either failure mode), `predict`
returns at most three predictions, and the pathogen identities in the
returned list are pairwise distinct. -/
theorem predict_at_most_three_distinct :
    ∀ (failure : Bool) (o : Observation),
      (predict failure o).length ≤ 3 ∧
      ((predict failure o).map EnhancedPrediction.pathogen).Nodup := by
  intro failure o
  cases failure with
  | true => simp [predict, fallback_prediction]
  | false =>
      have hmap : (predict false o).map EnhancedPrediction.pathogen
          = (rule_based_prediction o).map Candidate.pathogen := by
        simp only [predict, Bool.false_eq_true, if_false, predictResults, List.map_map]
        rfl
      have hlen : (predict false o).length = (rule_based_prediction o).length := by
        simp [predict, predictResults]
      rw [hlen, hmap]
      exact ⟨rule_based_length_le_three o, rule_based_pathogens_nodup o⟩

/-- C9: for every candidate whose pathogen identity is not in the
knowledge base, the enhanced prediction carries pathogen type "Unknown",
empty favorable conditions, empty typical symptoms, and the default
common name (which the fallback argument of the `common_name` lookup in
`_enhance_prediction` makes the pathogen identity itself). -/
theorem unknown_pathogen_enhancement :
    ∀ (c : Candidate) (o : Observation),
      knowledgeLookup c.pathogen = none →
      (enhance_prediction c o).pathogen_type = "Unknown" ∧
      (enhance_prediction c o).favorable_conditions = none ∧
      (enhance_prediction c o).typical_symptoms = [] ∧
      (enhance_prediction c o).common_name = c.pathogen := by
  intro c o h
  unfold enhance_prediction
  simp [h]

/-- Witness for C9 at the unknown identity "Fusarium fujikuroi". -/
theorem unknown_pathogen_enhancement_witness :
    knowledgeLookup "Fusarium fujikuroi" = none ∧
    (enhance_prediction ⟨"Fusarium fujikuroi", 0.7⟩ obsDefault).pathogen_type = "Unknown" ∧
    (enhance_prediction ⟨"Fusarium fujikuroi", 0.7⟩ obsDefault).favorable_conditions = none ∧
    (enhance_prediction ⟨"Fusarium fujikuroi", 0.7⟩ obsDefault).typical_symptoms = [] ∧
    (enhance_prediction ⟨"Fusarium fujikuroi", 0.7⟩ obsDefault).common_name = "Fusarium fujikuroi" :=
  ⟨rfl, unknown_pathogen_enhancement ⟨"Fusarium fujikuroi", 0.7⟩ obsDefault rfl⟩

def obsHighBonus : Observation :=
  { symptoms := [], temperature := 25, humidity := 90, growth_stage := none,
    rainfall := 0, severity := 8, affected_area := 60 }

/-- C4: for every confidence, observation and profile, the base risk is
confidence plus the four independent +0.1 bonuses of §4.3 (temperature in
the profile's favorable range, humidity in its favorable range, severity
at least 7, affected area at least 50) with no clipping, and the level is
"High" iff the base risk is at least 0.8, "Medium" iff it is in [0.6, 0.8),
"Low" iff it is below 0.6; with zero bonuses, confidence 0.6 yields exactly
"Medium" and confidence 0.8 exactly "High". -/
theorem risk_level_matches_spec :
    ∀ (confidence : ℚ) (o : Observation) (info : Option PathogenProfile),
      calc_base_risk confidence o info = specBaseRisk confidence o info ∧
      (calculate_risk_level confidence o info = "High" ↔
        0.8 ≤ calc_base_risk confidence o info) ∧
      (calculate_risk_level confidence o info = "Medium" ↔
        0.6 ≤ calc_base_risk confidence o info ∧ calc_base_risk confidence o info < 0.8) ∧
      (calculate_risk_level confidence o info = "Low" ↔
        calc_base_risk confidence o info < 0.6) ∧
      (tempFavorable o info = false → humFavorable o info = false →
        o.severity < 7 → o.affected_area < 50 →
        calculate_risk_level 0.6 o info = "Medium" ∧
        calculate_risk_level 0.8 o info = "High") := by
  intro confidence o info
  have hbase : ∀ c : ℚ, calc_base_risk c o info = specBaseRisk c o info := by
    intro c
    cases info with
    | none =>
        unfold calc_base_risk specBaseRisk tempFavorable humFavorable
        simp only [Bool.false_eq_true, if_false]
        split_ifs <;> ring
    | some p =>
        unfold calc_base_risk specBaseRisk tempFavorable humFavorable
        simp only [decide_eq_true_eq]
        split_ifs <;> ring
  have hclass : ∀ c : ℚ,
      (calculate_risk_level c o info = "High" ↔ 0.8 ≤ calc_base_risk c o info) ∧
      (calculate_risk_level c o info = "Medium" ↔
        0.6 ≤ calc_base_risk c o info ∧ calc_base_risk c o info < 0.8) ∧
      (calculate_risk_level c o info = "Low" ↔ calc_base_risk c o info < 0.6) := by
    intro c
    simp only [calculate_risk_level]
    split_ifs with h1 h2 <;>
      refine ⟨?_, ?_, ?_⟩ <;> simp <;>
        first | linarith | (intro h; linarith) | (exact ⟨by linarith, by linarith⟩)
  refine ⟨hbase confidence, (hclass confidence).1, (hclass confidence).2.1,
    (hclass confidence).2.2, ?_⟩
  intro ht hh hs ha
  have h6 : calc_base_risk 0.6 o info = 0.6 := by
    rw [hbase 0.6]
    unfold specBaseRisk
    rw [ht, hh]
    simp only [Bool.false_eq_true, if_false]
    rw [if_neg (not_le.mpr hs), if_neg (not_le.mpr ha)]
    norm_num
  have h8 : calc_base_risk 0.8 o info = 0.8 := by
    rw [hbase 0.8]
    unfold specBaseRisk
    rw [ht, hh]
    simp only [Bool.false_eq_true, if_false]
    rw [if_neg (not_le.mpr hs), if_neg (not_le.mpr ha)]
    norm_num
  constructor
  · exact ((hclass 0.6).2.1).mpr (by rw [h6]; norm_num)
  · exact ((hclass 0.8).1).mpr (by rw [h8])

/-- Witness for C4: the default observation with no profile has zero
bonuses, and the boundary confidences classify as claimed. -/
theorem risk_level_matches_spec_witness :
    tempFavorable obsDefault none = false ∧ humFavorable obsDefault none = false ∧
    obsDefault.severity < 7 ∧ obsDefault.affected_area < 50 ∧
    calculate_risk_level 0.6 obsDefault none = "Medium" ∧
    calculate_risk_level 0.8 obsDefault none = "High" := by
  have h := (risk_level_matches_spec 0.3 obsDefault none).2.2.2.2
    rfl rfl (by norm_num [obsDefault]) (by norm_num [obsDefault])
  exact ⟨rfl, rfl, by norm_num [obsDefault], by norm_num [obsDefault], h.1, h.2⟩

/-- C5: for every observation and profile, the recommendation list equals
the §4.4 assembly — severity line inserted at position 0, the profile's
management actions in order (empty when the profile is unknown), then the
grain-protection and ventilation lines, truncated to the first 5 — and its
length is always at most 5. -/
theorem recommendations_match_spec :
    ∀ (o : Observation) (info : Option PathogenProfile),
      get_management_recommendations o info = specRecommendations o info ∧
      (get_management_recommendations o info).length ≤ 5 := by
  intro o info
  have heq : get_management_recommendations o info = specRecommendations o info := by
    unfold get_management_recommendations specRecommendations
    split_ifs <;> simp
  refine ⟨heq, ?_⟩
  rw [heq]
  unfold specRecommendations
  exact List.length_take_le _ _

/-- C6: the action is "Immediate Treatment" for "High" risk with
confidence at least 0.8, "Urgent Monitoring" for "High" with confidence in
[0.6, 0.8), "Preventive Action" for "Medium" at any confidence, and
"Monitor & Observe" otherwise — in particular for "High" with confidence
below 0.6, a pairing reachable through the risk calculator's
environmental/severity bonuses, as the final existential shows. -/
theorem action_table :
    (∀ confidence : ℚ, 0.8 ≤ confidence →
      determine_action "High" confidence = "Immediate Treatment") ∧
    (∀ confidence : ℚ, 0.6 ≤ confidence → confidence < 0.8 →
      determine_action "High" confidence = "Urgent Monitoring") ∧
    (∀ confidence : ℚ, determine_action "Medium" confidence = "Preventive Action") ∧
    (∀ confidence : ℚ, determine_action "Low" confidence = "Monitor & Observe") ∧
    (∀ confidence : ℚ, confidence < 0.6 →
      determine_action "High" confidence = "Monitor & Observe") ∧
    (∃ (confidence : ℚ) (o : Observation) (info : Option PathogenProfile),
      confidence < 0.6 ∧
      calculate_risk_level confidence o info = "High" ∧
      determine_action (calculate_risk_level confidence o info) confidence
        = "Monitor & Observe") := by
  refine ⟨?_, ?_, ?_, ?_, ?_, ?_⟩
  · intro c h
    unfold determine_action
    rw [if_pos ⟨rfl, h⟩]
  · intro c h1 h2
    unfold determine_action
    rw [if_neg (by rintro ⟨-, h⟩; linarith), if_pos ⟨rfl, h1⟩]
  · intro c
    unfold determine_action
    rw [if_neg (by rintro ⟨h, -⟩; simp at h), if_neg (by rintro ⟨h, -⟩; simp at h),
      if_pos rfl]
  · intro c
    unfold determine_action
    rw [if_neg (by rintro ⟨h, -⟩; simp at h), if_neg (by rintro ⟨h, -⟩; simp at h),
      if_neg (by simp)]
  · intro c h
    unfold determine_action
    rw [if_neg (by rintro ⟨-, h2⟩; linarith), if_neg (by rintro ⟨-, h2⟩; linarith),
      if_neg (by simp)]
  · have hrisk : calculate_risk_level 0.5 obsHighBonus
        (knowledgeLookup "Magnaporthe oryzae") = "High" := by
      norm_num [knowledgeLookup, pathogen_knowledge, List.lookup, calculate_risk_level,
        calc_base_risk, obsHighBonus]
    refine ⟨0.5, obsHighBonus, knowledgeLookup "Magnaporthe oryzae",
      by norm_num, hrisk, ?_⟩
    rw [hrisk]
    unfold determine_action
    rw [if_neg (by rintro ⟨-, h2⟩; norm_num at h2),
      if_neg (by rintro ⟨-, h2⟩; norm_num at h2), if_neg (by simp)]

/-- Witness for C6 at three concrete confidences. -/
theorem action_table_witness :
    determine_action "High" 0.9 = "Immediate Treatment" ∧
    determine_action "High" 0.7 = "Urgent Monitoring" ∧
    determine_action "High" 0.5 = "Monitor & Observe" :=
  ⟨action_table.1 0.9 (by norm_num),
   action_table.2.1 0.7 (by norm_num) (by norm_num),
   action_table.2.2.2.2.1 0.5 (by norm_num)⟩

def obsBlast : Observation :=
  { symptoms := ["leaf spots"], temperature := 25, humidity := 90,
    growth_stage := some "Heading", rainfall := 0, severity := 5, affected_area := 25 }

def obsWeak : Observation :=
  { symptoms := ["zzz"], temperature := 0, humidity := 0, growth_stage := none,
    rainfall := 0, severity := 0, affected_area := 0 }

/-- C2: each known pathogen's raw score equals the flat sum of its
independent §4.2 rule contributions; a pathogen appears among the
candidates if and only if its raw score strictly exceeds 0.5; every
candidate's confidence is `min(rawScore, 0.95)`; and the candidates appear
in evaluation order Magnaporthe, Rhizoctonia, Xanthomonas (a sublist of
that fixed order — never sorted by confidence). -/
theorem rule_scores_and_candidates :
    ∀ o : Observation,
      blast_score o = specScore_magnaporthe o ∧
      blight_score o = specScore_rhizoctonia o ∧
      bacterial_score o = specScore_xanthomonas o ∧
      List.Sublist ((rule_candidates o).map Candidate.pathogen)
        ["Magnaporthe oryzae", "Rhizoctonia solani", "Xanthomonas oryzae"] ∧
      ((∃ c ∈ rule_candidates o, c.pathogen = "Magnaporthe oryzae") ↔
        0.5 < blast_score o) ∧
      ((∃ c ∈ rule_candidates o, c.pathogen = "Rhizoctonia solani") ↔
        0.5 < blight_score o) ∧
      ((∃ c ∈ rule_candidates o, c.pathogen = "Xanthomonas oryzae") ↔
        0.5 < bacterial_score o) ∧
      (∀ c ∈ rule_candidates o,
        (c.pathogen = "Magnaporthe oryzae" → c.confidence = min (blast_score o) 0.95) ∧
        (c.pathogen = "Rhizoctonia solani" → c.confidence = min (blight_score o) 0.95) ∧
        (c.pathogen = "Xanthomonas oryzae" → c.confidence = min (bacterial_score o) 0.95)) := by
  intro o
  refine ⟨?_, ?_, ?_, rule_candidates_pathogens_sublist o, ?_, ?_, ?_, ?_⟩
  · simp only [blast_score, specScore_magnaporthe]
    split_ifs <;> ring
  · simp only [blight_score, specScore_rhizoctonia]
    split_ifs <;> ring
  · simp only [bacterial_score, specScore_xanthomonas]
    split_ifs <;> ring
  · unfold rule_candidates
    split_ifs with h1 h2 h3 <;> simp_all
  · unfold rule_candidates
    split_ifs with h1 h2 h3 <;> simp_all
  · unfold rule_candidates
    split_ifs with h1 h2 h3 <;> simp_all
  · unfold rule_candidates
    split_ifs with h1 h2 h3 <;> intro c hc <;> simp at hc <;>
      rcases hc with rfl | rfl | rfl <;> simp

/-- Witness for C2: an observation whose blast score (1.0) exceeds 0.5
produces a Magnaporthe oryzae candidate. -/
theorem rule_scores_and_candidates_witness :
    0.5 < blast_score obsBlast ∧
    (∃ c ∈ rule_candidates obsBlast, c.pathogen = "Magnaporthe oryzae") := by
  have hb : 0.5 < blast_score obsBlast := by
    norm_num [blast_score, hasAnySymptom, stageIn, obsBlast]
  exact ⟨hb, ((rule_scores_and_candidates obsBlast).2.2.2.2.1).mpr hb⟩

/-- C3: when no raw score strictly exceeds 0.5, `predict` returns exactly
one prediction — Magnaporthe oryzae at confidence 0.6 when the symptom
list is non-empty, "Unknown" at confidence 0.3 when it is empty. -/
theorem weak_scores_fallback :
    ∀ o : Observation,
      blast_score o ≤ 0.5 → blight_score o ≤ 0.5 → bacterial_score o ≤ 0.5 →
      (o.symptoms ≠ [] →
        (predict false o).map (fun e => (e.pathogen, e.confidence))
          = [("Magnaporthe oryzae", 0.6)]) ∧
      (o.symptoms = [] →
        (predict false o).map (fun e => (e.pathogen, e.confidence))
          = [("Unknown", 0.3)]) := by
  intro o h1 h2 h3
  have hcand : rule_candidates o = [] := by
    unfold rule_candidates
    rw [if_neg (not_lt.mpr h1), if_neg (not_lt.mpr h2), if_neg (not_lt.mpr h3)]
    rfl
  constructor <;> intro hs
  · have hr : rule_based_prediction o = [⟨"Magnaporthe oryzae", 0.6⟩] := by
      rw [rule_based_prediction_eq, hcand]
      simp [List.isEmpty_iff, hs]
    simp [predict, predictResults, hr, enhance_prediction]
  · have hr : rule_based_prediction o = [⟨"Unknown", 0.3⟩] := by
      rw [rule_based_prediction_eq, hcand]
      simp [List.isEmpty_iff, hs]
    simp [predict, predictResults, hr, enhance_prediction]

/-- Witness for C3: an observation with an unrecognised symptom and all
scores 0 yields the single Magnaporthe fallback at confidence 0.6. -/
theorem weak_scores_fallback_witness :
    blast_score obsWeak ≤ 0.5 ∧ blight_score obsWeak ≤ 0.5 ∧
    bacterial_score obsWeak ≤ 0.5 ∧ obsWeak.symptoms ≠ [] ∧
    (predict false obsWeak).map (fun e => (e.pathogen, e.confidence))
      = [("Magnaporthe oryzae", 0.6)] := by
  have e1 : hasAnySymptom ["leaf spots", "neck rot", "panicle blast"] ["zzz"] = false := rfl
  have e2 : hasAnySymptom ["sheath blight", "lesions", "yellowing"] ["zzz"] = false := rfl
  have e3 : hasAnySymptom ["leaf blight", "yellowing", "wilting"] ["zzz"] = false := rfl
  have hb : blast_score obsWeak ≤ 0.5 := by
    norm_num [blast_score, stageIn, obsWeak, e1]
  have hbl : blight_score obsWeak ≤ 0.5 := by
    norm_num [blight_score, stageIn, obsWeak, e2]
  have hba : bacterial_score obsWeak ≤ 0.5 := by
    norm_num [bacterial_score, obsWeak, e3]
  exact ⟨hb, hbl, hba, by simp [obsWeak],
    (weak_scores_fallback obsWeak hb hbl hba).1 (by simp [obsWeak])⟩

lemma breeding_rec_priority_eq (p : String) (m : ℚ) (v : Option ℚ) :
    (breeding_rec p m v).priority =
      if m < 4 then "High" else if m < 6 then "Medium" else "Low" := by
  simp only [breeding_rec]
  split_ifs <;> rfl

lemma breeding_rec_recommendation_eq (p : String) (m : ℚ) (v : Option ℚ) :
    (breeding_rec p m v).recommendation =
      (if m < 4 then "Urgent need to develop varieties with higher resistance to " ++ p
       else if m < 6 then "Improve resistance levels to " ++ p ++ " through selective breeding"
       else "Maintain current resistance levels to " ++ p) ++ variabilitySuffix v := by
  simp only [breeding_rec, variabilitySuffix]
  cases v with
  | none => split_ifs <;> simp
  | some x => split_ifs <;> by_cases hx : 4 < x <;> simp [hx]

/-- C7: the breeding-priority analyzer assigns priority "High" with the
urgent-development message when the mean is below 4, "Medium" with the
selective-breeding message when the mean is in [4, 6), and "Low" with the
maintain message when the mean is at least 6; the variability suffix is
appended exactly when the standard deviation exceeds 2 (`variabilitySuffix`
tests the sample variance against 4, which is equivalent for the
nonnegative standard deviation), and a missing standard deviation (fewer
than 2 samples) contributes no suffix and a reported variability of 0. -/
theorem breeding_rec_tiers :
    ∀ (pathogen : String) (avg_resistance : ℚ) (varSq : Option ℚ),
      (avg_resistance < 4 →
        (breeding_rec pathogen avg_resistance varSq).priority = "High" ∧
        (breeding_rec pathogen avg_resistance varSq).recommendation =
          "Urgent need to develop varieties with higher resistance to " ++ pathogen
            ++ variabilitySuffix varSq) ∧
      (4 ≤ avg_resistance → avg_resistance < 6 →
        (breeding_rec pathogen avg_resistance varSq).priority = "Medium" ∧
        (breeding_rec pathogen avg_resistance varSq).recommendation =
          "Improve resistance levels to " ++ pathogen ++ " through selective breeding"
            ++ variabilitySuffix varSq) ∧
      (6 ≤ avg_resistance →
        (breeding_rec pathogen avg_resistance varSq).priority = "Low" ∧
        (breeding_rec pathogen avg_resistance varSq).recommendation =
          "Maintain current resistance levels to " ++ pathogen
            ++ variabilitySuffix varSq) ∧
      (varSq = none →
        variabilitySuffix varSq = "" ∧
        (breeding_rec pathogen avg_resistance varSq).variability_sq = 0) := by
  intro p m v
  rw [breeding_rec_priority_eq, breeding_rec_recommendation_eq]
  refine ⟨fun hm => ⟨?_, ?_⟩, fun hm hm' => ⟨?_, ?_⟩, fun hm => ⟨?_, ?_⟩,
    fun hv => ⟨?_, ?_⟩⟩
  · rw [if_pos hm]
  · rw [if_pos hm]
  · rw [if_neg (not_lt.mpr hm), if_pos hm']
  · rw [if_neg (not_lt.mpr hm), if_pos hm']
  · rw [if_neg (by linarith), if_neg (by linarith)]
  · rw [if_neg (by linarith), if_neg (by linarith)]
  · subst hv; rfl
  · subst hv; rfl

/-- Witness for C7 at mean 3 and sample variance 5 (standard deviation
above 2, so the suffix is appended). -/
theorem breeding_rec_tiers_witness :
    (3 : ℚ) < 4 ∧
    (breeding_rec "Magnaporthe oryzae" 3 (some 5)).priority = "High" ∧
    (breeding_rec "Magnaporthe oryzae" 3 (some 5)).recommendation =
      "Urgent need to develop varieties with higher resistance to Magnaporthe oryzae"
        ++ " - Focus on reducing variability between varieties" := by
  have h := (breeding_rec_tiers "Magnaporthe oryzae" 3 (some 5)).1 (by norm_num)
  have hsfx : variabilitySuffix (some 5) =
      " - Focus on reducing variability between varieties" := by
    norm_num [variabilitySuffix]
  refine ⟨by norm_num, h.1, ?_⟩
  rw [h.2, hsfx]
  rfl

lemma breeding_rec_pathogen_eq (p : String) (m : ℚ) (v : Option ℚ) :
    (breeding_rec p m v).pathogen = p := rfl

lemma priority_rank_pos (p : String) : 1 ≤ priority_rank p := by
  unfold priority_rank
  split_ifs <;> norm_num

lemma insertByRank_front (x : BreedingRec) (l : List BreedingRec)
    (h : ∀ y ∈ l, priority_rank x.priority ≤ priority_rank y.priority) :
    insertByRank x l = x :: l := by
  cases l with
  | nil => rfl
  | cons y ys =>
      unfold insertByRank
      rw [if_pos (h y (List.mem_cons_self y ys))]

lemma insertByRank_skip (x : BreedingRec) (a b : List BreedingRec)
    (h : ∀ y ∈ a, priority_rank y.priority < priority_rank x.priority) :
    insertByRank x (a ++ b) = a ++ insertByRank x b := by
  induction a with
  | nil => simp
  | cons y ys ih =>
      simp only [List.cons_append]
      rw [insertByRank]
      rw [if_neg (not_le.mpr (h y (List.mem_cons_self y ys)))]
      rw [ih (fun z hz => h z (List.mem_cons_of_mem y hz))]

lemma sortByRank_filter_eq :
    ∀ l : List BreedingRec,
      (∀ r ∈ l, r.priority = "High" ∨ r.priority = "Medium" ∨ r.priority = "Low") →
      sortByRank l =
        l.filter (fun r => r.priority == "High")
        ++ l.filter (fun r => r.priority == "Medium")
        ++ l.filter (fun r => r.priority == "Low") := by
  intro l
  induction l with
  | nil => intro _; rfl
  | cons x xs ih =>
      intro h
      have hx := h x (List.mem_cons_self x xs)
      have hxs : ∀ r ∈ xs, r.priority = "High" ∨ r.priority = "Medium" ∨ r.priority = "Low" :=
        fun r hr => h r (List.mem_cons_of_mem x hr)
      have hH : ∀ y ∈ xs.filter (fun r => r.priority == "High"), y.priority = "High" := by
        intro y hy
        simpa using (List.mem_filter.mp hy).2
      have hM : ∀ y ∈ xs.filter (fun r => r.priority == "Medium"), y.priority = "Medium" := by
        intro y hy
        simpa using (List.mem_filter.mp hy).2
      have hL : ∀ y ∈ xs.filter (fun r => r.priority == "Low"), y.priority = "Low" := by
        intro y hy
        simpa using (List.mem_filter.mp hy).2
      have hstep : sortByRank (x :: xs) = insertByRank x (sortByRank xs) := rfl
      rw [hstep, ih hxs]
      rcases hx with hx | hx | hx
      · rw [insertByRank_front]
        · simp [List.filter_cons, hx]
        · intro y hy
          rw [hx]
          exact priority_rank_pos _
      · rw [List.append_assoc, insertByRank_skip x _ _ ?hskip, insertByRank_front x _ ?hfront]
        case hskip =>
          intro y hy
          rw [hx, hH y hy]
          decide
        case hfront =>
          intro y hy
          rcases List.mem_append.mp hy with hy | hy
          · rw [hx, hM y hy]
          · rw [hx, hL y hy]
            decide
        simp [List.filter_cons, hx]
      · rw [List.append_assoc, ← List.append_assoc, insertByRank_skip x _ _ ?hskip2,
          insertByRank_front x _ ?hfront2]
        case hskip2 =>
          intro y hy
          rcases List.mem_append.mp hy with hy | hy
          · rw [hx, hH y hy]
            decide
          · rw [hx, hM y hy]
            decide
        case hfront2 =>
          intro y hy
          rw [hx, hL y hy]
        simp [List.filter_cons, hx]

lemma breeding_group_recs_priorities (rows : List ResistanceRow) :
    ∀ r ∈ breeding_group_recs rows,
      r.priority = "High" ∨ r.priority = "Medium" ∨ r.priority = "Low" := by
  intro r hr
  unfold breeding_group_recs at hr
  simp only [List.mem_map] at hr
  obtain ⟨k, hk, rfl⟩ := hr
  rw [breeding_rec_priority_eq]
  split_ifs <;> simp

/-- The tie-breaking counterexample rows: pathogen "B" before pathogen "A"
in the input, both with mean resistance 3 (priority High). -/
def rowsTie : List ResistanceRow := [⟨"B", 3⟩, ⟨"A", 3⟩]

/-- The spec's §8 example rows: input order C (mean 8), A (mean 3), B (mean 5). -/
def rowsCAB : List ResistanceRow := [⟨"C", 8⟩, ⟨"A", 3⟩, ⟨"B", 5⟩]

lemma breeding_tie_eval :
    (get_breeding_recommendations rowsTie).map (fun r => (r.pathogen, r.priority))
      = [("A", "High"), ("B", "High")] := by
  have hg1 : groupScores rowsTie "A" = [3] := by
    simp [rowsTie, groupScores, List.filter_cons]
  have hg2 : groupScores rowsTie "B" = [3] := by
    simp [rowsTie, groupScores, List.filter_cons]
  have hk : sortKeys ((rowsTie.map ResistanceRow.pathogen).eraseDups) = ["A", "B"] := by
    simp [rowsTie, sortKeys, insertKey, strLt, charListLt, List.eraseDups]
  have hmv : meanOf [(3 : ℚ)] = 3 ∧ sampleVarOf [(3 : ℚ)] = none := by
    norm_num [meanOf, sampleVarOf]
  have hrecs : breeding_group_recs rowsTie =
      [breeding_rec "A" 3 none, breeding_rec "B" 3 none] := by
    unfold breeding_group_recs
    rw [hk]
    simp only [List.map_cons, List.map_nil, hg1, hg2, hmv.1, hmv.2]
  have hpr : ∀ p : String, (breeding_rec p 3 none).priority = "High" := by
    intro p
    rw [breeding_rec_priority_eq]
    norm_num
  have hsorted : sortByRank [breeding_rec "A" 3 none, breeding_rec "B" 3 none]
      = [breeding_rec "A" 3 none, breeding_rec "B" 3 none] := by
    simp [sortByRank, insertByRank, hpr, priority_rank]
  rw [show get_breeding_recommendations rowsTie
      = sortByRank (breeding_group_recs rowsTie) from by
    unfold get_breeding_recommendations
    rw [if_neg (by simp [rowsTie])]]
  rw [hrecs, hsorted]
  simp [breeding_rec_pathogen_eq, hpr]

/-- Counterexample for C8: rows for pathogen "B" then "A", both with mean
resistance 3, tie at priority "High"; the output lists A before B — the
ascending key order of the pandas groupby — not the input relative order
[B, A] that the claim requires. -/
theorem breeding_tie_counterexample :
    (get_breeding_recommendations rowsTie).map (fun r => (r.pathogen, r.priority))
      = [("A", "High"), ("B", "High")] ∧
    (get_breeding_recommendations rowsTie).map (fun r => (r.pathogen, r.priority))
      ≠ [("B", "High"), ("A", "High")] := by
  refine ⟨breeding_tie_eval, ?_⟩
  rw [breeding_tie_eval]
  simp

lemma breeding_cab_eval :
    (get_breeding_recommendations rowsCAB).map (fun r => (r.pathogen, r.priority))
      = [("A", "High"), ("B", "Medium"), ("C", "Low")] := by
  have hg1 : groupScores rowsCAB "A" = [3] := by
    simp [rowsCAB, groupScores, List.filter_cons]
  have hg2 : groupScores rowsCAB "B" = [5] := by
    simp [rowsCAB, groupScores, List.filter_cons]
  have hg3 : groupScores rowsCAB "C" = [8] := by
    simp [rowsCAB, groupScores, List.filter_cons]
  have hk : sortKeys ((rowsCAB.map ResistanceRow.pathogen).eraseDups) = ["A", "B", "C"] := by
    simp [rowsCAB, sortKeys, insertKey, strLt, charListLt, List.eraseDups]
  have hm1 : meanOf [(3 : ℚ)] = 3 ∧ sampleVarOf [(3 : ℚ)] = none := by
    norm_num [meanOf, sampleVarOf]
  have hm2 : meanOf [(5 : ℚ)] = 5 ∧ sampleVarOf [(5 : ℚ)] = none := by
    norm_num [meanOf, sampleVarOf]
  have hm3 : meanOf [(8 : ℚ)] = 8 ∧ sampleVarOf [(8 : ℚ)] = none := by
    norm_num [meanOf, sampleVarOf]
  have hrecs : breeding_group_recs rowsCAB =
      [breeding_rec "A" 3 none, breeding_rec "B" 5 none, breeding_rec "C" 8 none] := by
    unfold breeding_group_recs
    rw [hk]
    simp only [List.map_cons, List.map_nil, hg1, hg2, hg3, hm1.1, hm1.2, hm2.1, hm2.2,
      hm3.1, hm3.2]
  have hp1 : (breeding_rec "A" (3 : ℚ) none).priority = "High" := by
    rw [breeding_rec_priority_eq]
    norm_num
  have hp2 : (breeding_rec "B" (5 : ℚ) none).priority = "Medium" := by
    rw [breeding_rec_priority_eq]
    norm_num
  have hp3 : (breeding_rec "C" (8 : ℚ) none).priority = "Low" := by
    rw [breeding_rec_priority_eq]
    norm_num
  have hsorted : sortByRank [breeding_rec "A" 3 none, breeding_rec "B" 5 none,
      breeding_rec "C" 8 none]
      = [breeding_rec "A" 3 none, breeding_rec "B" 5 none, breeding_rec "C" 8 none] := by
    simp [sortByRank, insertByRank, hp1, hp2, hp3, priority_rank]
  rw [show get_breeding_recommendations rowsCAB
      = sortByRank (breeding_group_recs rowsCAB) from by
    unfold get_breeding_recommendations
    rw [if_neg (by simp [rowsCAB])]]
  rw [hrecs, hsorted]
  simp [breeding_rec_pathogen_eq, hp1, hp2, hp3]

/-- C8 (amended): the analyzer's output is the stable sort by priority
rank High, Medium, Low of the per-group recommendations, with ties in
ascending pathogen-name (groupby key) order rather than input order — the
filter concatenation states exactly that; empty input yields an empty
sequence, and the function is total (never raises). The spec §8 example
[C (mean 8), A (mean 3), B (mean 5)] still orders as [A, B, C]. -/
theorem breeding_priorities_order :
    (∀ rows : List ResistanceRow,
      get_breeding_recommendations rows =
        (breeding_group_recs rows).filter (fun r => r.priority == "High")
        ++ (breeding_group_recs rows).filter (fun r => r.priority == "Medium")
        ++ (breeding_group_recs rows).filter (fun r => r.priority == "Low")) ∧
    get_breeding_recommendations [] = [] ∧
    (get_breeding_recommendations rowsCAB).map (fun r => (r.pathogen, r.priority))
      = [("A", "High"), ("B", "Medium"), ("C", "Low")] := by
  refine ⟨?_, rfl, breeding_cab_eval⟩
  intro rows
  unfold get_breeding_recommendations
  split_ifs with h
  · rw [List.isEmpty_iff] at h
    subst h
    rfl
  · exact sortByRank_filter_eq _ (breeding_group_recs_priorities rows)
